import Mathlib

/-!
Shallow embedding of `parse.go` from the gocronometer repository.

Modelling conventions:
- Go `float64` values are modelled as `ℚ`.  Every numeric value the claims
  touch is an exact decimal, so rational arithmetic agrees with the Go
  computation on all inputs considered here.
- Go's `*time.Location` is modelled as `Option String` (`none` = nil pointer,
  `some name` = a loaded zone).  Go's `time.Time` values produced by
  `time.ParseInLocation` with the layout `"2006-01-02 15:04"` are wall-clock
  values in a zone, modelled by the `GoTime` structure below.
- The `encoding/csv` reader (external standard library) is modelled by the
  stream of rows it yields: a `List (List String)` of successfully read rows
  followed by either clean EOF (`none`) or a structural read error
  (`some errorMessage`).  The repository's loops consume exactly this stream.
- Fallible Go functions returning `(T, error)` are modelled as
  `Except String T`; the parse entry points, which return a pair
  `(records, err)` with a nil slice on every error path, are modelled as
  `List Record × Option String` to keep both components visible.
- `fmt.Errorf` formatted messages are modelled by string concatenation;
  `%q` is modelled by `goQuote` (escaping of exotic characters is not
  reproduced; none of the strings involved here need it), and the text of
  errors produced inside the Go standard library `time` package is
  abstracted to a fixed tail, since the repository code only wraps it.
-/

/-- Wall-clock timestamp in a named zone, the observable content of a Go
`time.Time` produced by `time.ParseInLocation` for the minute-resolution
layout used by this repository. -/
structure GoTime where
  year : Nat
  month : Nat
  day : Nat
  hour : Nat
  minute : Nat
  loc : String
deriving DecidableEq

instance {ε α : Type} [DecidableEq ε] [DecidableEq α] : DecidableEq (Except ε α) :=
  fun x y =>
    match x, y with
    | .ok a, .ok b =>
        if h : a = b then isTrue (congrArg Except.ok h) else
          isFalse (fun hc => h (by cases hc; rfl))
    | .ok _, .error _ => isFalse (fun hc => Except.noConfusion hc)
    | .error _, .ok _ => isFalse (fun hc => Except.noConfusion hc)
    | .error e, .error f =>
        if h : e = f then isTrue (congrArg Except.error h) else
          isFalse (fun hc => h (by cases hc; rfl))

/-- Zero value of Go `time.Time`: January 1, year 1, 00:00 UTC. -/
def GoTime.zero : GoTime := ⟨1, 1, 1, 0, 0, "UTC"⟩

/-- Model of Go `%q` for the strings appearing in error messages. -/
def goQuote (s : String) : String := "\"" ++ s ++ "\""

def digitVal (c : Char) : Nat := c.toNat - 48

/-- Reads a maximal digit prefix, returning (value, digit count, rest).
Helper for the decimal forms of `strconv.ParseFloat`. -/
def takeDigits : List Char → Nat × Nat → (Nat × Nat) × List Char
  | [], acc => (acc, [])
  | c :: cs, (v, n) =>
      if c.isDigit then takeDigits cs (v * 10 + digitVal c, n + 1)
      else ((v, n), c :: cs)

/-- Modelled core of `strconv.ParseFloat` on its decimal forms: optional
sign, decimal digits with an optional fractional part, optional decimal
exponent; the whole string must be consumed.  The special forms Go also
accepts (infinities, NaN, hexadecimal floats, digit-separating
underscores) are outside the inputs this repository's claims exercise and
are not modelled; rounding to binary is replaced by exact rationals. -/
def parseGoFloat (s : String) : Option ℚ :=
  let cs := s.data
  let signAndRest : Bool × List Char :=
    match cs with
    | '+' :: rest => (false, rest)
    | '-' :: rest => (true, rest)
    | _ => (false, cs)
  let neg := signAndRest.1
  let ipRes := takeDigits signAndRest.2 (0, 0)
  let ip := ipRes.1.1
  let ipn := ipRes.1.2
  let fpRes : (Nat × Nat) × List Char :=
    match ipRes.2 with
    | '.' :: rest => takeDigits rest (0, 0)
    | _ => ((0, 0), ipRes.2)
  let fp := fpRes.1.1
  let fpn := fpRes.1.2
  let afterFrac := fpRes.2
  if ipn + fpn = 0 then none
  else
    let mantNum : Int := if neg then -((ip * 10 ^ fpn + fp : Nat) : Int) else ((ip * 10 ^ fpn + fp : Nat) : Int)
    match afterFrac with
    | [] => some (mkRat mantNum (10 ^ fpn))
    | e :: rest =>
        if e = 'e' ∨ e = 'E' then
          let esignAndRest : Bool × List Char :=
            match rest with
            | '+' :: r => (false, r)
            | '-' :: r => (true, r)
            | _ => (false, rest)
          let evRes := takeDigits esignAndRest.2 (0, 0)
          if evRes.1.2 = 0 ∨ evRes.2 ≠ [] then none
          else
            let ev := evRes.1.1
            if esignAndRest.1 then some (mkRat mantNum (10 ^ fpn * 10 ^ ev))
            else some (mkRat (mantNum * ((10 ^ ev : Nat) : Int)) (10 ^ fpn))
        else none

/-- Error text of a failed `strconv.ParseFloat` call (a `strconv.NumError`
with the invalid-syntax cause, the case every malformed cell here hits). -/
def strconvErr (s : String) : String :=
  "strconv.ParseFloat: parsing " ++ goQuote s ++ ": invalid syntax"

/-- Embeds the repository's `parseFloat` helper: an empty string is 0,
anything else defers to `strconv.ParseFloat`.  The `bitSize` argument is
kept for signature fidelity; it only selects the rounding width in Go. -/
def parseFloat (s : String) (bitSize : Nat) : Except String ℚ :=
  let _ := bitSize
  if s = "" then .ok 0
  else
    match parseGoFloat s with
    | some q => .ok q
    | none => .error (strconvErr s)

/-- Embeds `parseNutrientFloat`: wraps a `parseFloat` failure with the
nutrient name and the quoted offending value. -/
def parseNutrientFloat (value nutrient : String) : Except String ℚ :=
  match parseFloat value 64 with
  | .ok f => .ok f
  | .error e =>
      .error ("parsing " ++ nutrient ++ " value " ++ goQuote value ++ ": " ++ e)

def isLeapYear (y : Nat) : Bool :=
  y % 4 = 0 ∧ (y % 100 ≠ 0 ∨ y % 400 = 0)

def daysInMonth (m y : Nat) : Nat :=
  if m = 2 then (if isLeapYear y then 29 else 28)
  else if m = 4 ∨ m = 6 ∨ m = 9 ∨ m = 11 then 30
  else 31

/-- Reads one or (when `fixed` is true, exactly) two digits, as Go's
`getnum` does for the `"01"`/`"02"`/`"04"` (fixed) and `"15"` (non-fixed)
layout elements. -/
def getnum2 (fixed : Bool) : List Char → Option (Nat × List Char)
  | c1 :: c2 :: rest =>
      if c1.isDigit then
        if c2.isDigit then some (digitVal c1 * 10 + digitVal c2, rest)
        else if fixed then none else some (digitVal c1, c2 :: rest)
      else none
  | [c1] => if c1.isDigit ∧ fixed = false then some (digitVal c1, []) else none
  | [] => none

/-- Reads exactly four digits, as Go does for the `"2006"` layout element. -/
def getnum4 : List Char → Option (Nat × List Char)
  | a :: b :: c :: d :: rest =>
      if a.isDigit ∧ b.isDigit ∧ c.isDigit ∧ d.isDigit then
        some (digitVal a * 1000 + digitVal b * 100 + digitVal c * 10 + digitVal d, rest)
      else none
  | _ => none

def expectChar (c : Char) : List Char → Option (List Char)
  | x :: rest => if x = c then some rest else none
  | [] => none

/-- Model of Go `time.ParseInLocation` specialised to the fixed layout
`"2006-01-02 15:04"`: four-digit year, literal dash, two-digit month,
literal dash, two-digit day, literal space, one-or-two-digit 24-hour hour,
literal colon, two-digit minute, and then the end of the string — any
trailing text is an error, as in Go.  The component range checks (month
1–12, day valid for the month with leap years, hour below 24, minute
below 60) mirror Go's. -/
def parseInLocation (s : String) (loc : String) : Option GoTime := do
  let cs := s.data
  let (y, cs) ← getnum4 cs
  let cs ← expectChar '-' cs
  let (mo, cs) ← getnum2 true cs
  let cs ← expectChar '-' cs
  let (d, cs) ← getnum2 true cs
  let cs ← expectChar ' ' cs
  let (h, cs) ← getnum2 false cs
  let cs ← expectChar ':' cs
  let (mi, cs) ← getnum2 true cs
  if cs = [] ∧ 1 ≤ mo ∧ mo ≤ 12 ∧ 1 ≤ d ∧ d ≤ daysInMonth mo y ∧ h ≤ 23 ∧ mi ≤ 59 then
    some ⟨y, mo, d, h, mi, loc⟩
  else none

/-- Embeds `parseDateTime`: nil location defaults to UTC, an empty time
string defaults to `"00:00"`, date and time are joined with a space and
parsed against the fixed layout; failure is wrapped with the combined
string.  The diagnostic text of the wrapped standard-library error is
abstracted to a fixed tail. -/
def parseDateTime (date timeStr : String) (location : Option String) :
    Except String GoTime :=
  let location := match location with | none => "UTC" | some l => l
  let timeStr := if timeStr = "" then "00:00" else timeStr
  let dateTimeStr := date ++ " " ++ timeStr
  match parseInLocation dateTimeStr location with
  | some t => .ok t
  | none => .error ("invalid date/time format " ++ goQuote dateTimeStr ++ ": parse error")

example : parseGoFloat "123.4" = some (mkRat 617 5) := by decide
example : parseGoFloat "abc" = none := by decide
example : parseGoFloat "" = none := by decide
example : parseGoFloat "1.5e2" = some (mkRat 150 1) := by decide
example : parseGoFloat "-2" = some (mkRat (-2) 1) := by decide
example : parseDateTime "2023-05-01" "" (some "EST") = .ok ⟨2023, 5, 1, 0, 0, "EST"⟩ := by decide
example : parseDateTime "2023-05-01" "00:00 AM" (some "EST")
    = .error "invalid date/time format \"2023-05-01 00:00 AM\": parse error" := by decide
example : parseDateTime "2023-05-01" "14:30" none = .ok ⟨2023, 5, 1, 14, 30, "UTC"⟩ := by decide
example : (parseDateTime "2023-13-01" "14:30" none).toOption = none := by decide
example : (parseDateTime "2023-02-29" "14:30" none).toOption = none := by decide
example : (parseDateTime "2024-02-29" "14:30" none).toOption = some ⟨2024, 2, 29, 14, 30, "UTC"⟩ := by decide

/-! Record types, mirroring the Go structs field for field.  Each field
carries the Go zero value as default, so `{}` is the Go struct literal
`ServingRecord{}` etc. -/

structure ServingRecord where
  RecordedTime : GoTime := GoTime.zero
  Group : String := ""
  FoodName : String := ""
  QuantityValue : ℚ := 0
  QuantityUnits : String := ""
  EnergyKcal : ℚ := 0
  CaffeineMg : ℚ := 0
  WaterG : ℚ := 0
  B1Mg : ℚ := 0
  B2Mg : ℚ := 0
  B3Mg : ℚ := 0
  B5Mg : ℚ := 0
  B6Mg : ℚ := 0
  B12Mg : ℚ := 0
  BiotinUg : ℚ := 0
  CholineMg : ℚ := 0
  FolateUg : ℚ := 0
  VitaminAUI : ℚ := 0
  VitaminCMg : ℚ := 0
  VitaminDUI : ℚ := 0
  VitaminEMg : ℚ := 0
  VitaminKMg : ℚ := 0
  CalciumMg : ℚ := 0
  ChromiumUg : ℚ := 0
  CopperMg : ℚ := 0
  FluorideUg : ℚ := 0
  IodineUg : ℚ := 0
  MagnesiumMg : ℚ := 0
  ManganeseMg : ℚ := 0
  PhosphorusMg : ℚ := 0
  PotassiumMg : ℚ := 0
  SeleniumUg : ℚ := 0
  SodiumMg : ℚ := 0
  ZincMg : ℚ := 0
  CarbsG : ℚ := 0
  FiberG : ℚ := 0
  FructoseG : ℚ := 0
  GalactoseG : ℚ := 0
  GlucoseG : ℚ := 0
  LactoseG : ℚ := 0
  MaltoseG : ℚ := 0
  StarchG : ℚ := 0
  SucroseG : ℚ := 0
  SugarsG : ℚ := 0
  NetCarbsG : ℚ := 0
  FatG : ℚ := 0
  CholesterolMg : ℚ := 0
  MonounsaturatedG : ℚ := 0
  PolyunsaturatedG : ℚ := 0
  SaturatedG : ℚ := 0
  TransFatG : ℚ := 0
  Omega3G : ℚ := 0
  Omega6G : ℚ := 0
  CystineG : ℚ := 0
  HistidineG : ℚ := 0
  IsoleucineG : ℚ := 0
  LeucineG : ℚ := 0
  LysineG : ℚ := 0
  MethionineG : ℚ := 0
  PhenylalanineG : ℚ := 0
  ThreonineG : ℚ := 0
  TryptophanG : ℚ := 0
  TyrosineG : ℚ := 0
  ValineG : ℚ := 0
  ProteinG : ℚ := 0
  IronMg : ℚ := 0
  Category : String := ""
deriving DecidableEq

/-- Go struct literal `ServingRecord{}`: every field at its zero value. -/
def ServingRecord.zero : ServingRecord := {}

structure ExerciseRecord where
  RecordedTime : GoTime := GoTime.zero
  Exercise : String := ""
  Minutes : ℚ := 0
  CaloriesBurned : ℚ := 0
deriving DecidableEq

def ExerciseRecord.zero : ExerciseRecord := {}

structure BiometricRecord where
  RecordedTime : GoTime := GoTime.zero
  Metric : String := ""
  Unit : String := ""
  Amount : ℚ := 0
deriving DecidableEq

def BiometricRecord.zero : BiometricRecord := {}

/-- Finds the first space character, returning the parts before and after
it.  Helper for `goSplitN2`. -/
def splitFirstSpace : List Char → Option (List Char × List Char)
  | [] => none
  | c :: cs =>
      if c = ' ' then some ([], cs)
      else (splitFirstSpace cs).map fun p => (c :: p.1, p.2)

/-- Model of Go `strings.SplitN(v, " ", 2)`: at most two parts, split at
the first space character; without a space the whole string is the single
part. -/
def goSplitN2 (v : String) : List String :=
  match splitFirstSpace v.data with
  | none => [v]
  | some p => [⟨p.1⟩, ⟨p.2⟩]

/-- One step of the serving row decoder: the body of the `switch` on the
column name in `ParseServingsExport` (lines 149-537 of parse.go).  The
state is the tuple of the Go loop's mutable locals `(date, timeStr,
serving)`.  Column names matching no case leave the state unchanged. -/
def applyServingColumn (columnName v : String) (st : String × String × ServingRecord) :
    Except String (String × String × ServingRecord) :=
  let date := st.1
  let timeStr := st.2.1
  let serving := st.2.2
  match columnName with
  | "Day" => .ok (v, timeStr, serving)
  | "Time" => .ok (date, v, serving)
  | "Group" => .ok (date, timeStr, { serving with Group := v })
  | "Food Name" => .ok (date, timeStr, { serving with FoodName := v })
  | "Amount" =>
      match goSplitN2 v with
      | [a, b] =>
          match parseFloat a 64 with
          | .ok f => .ok (date, timeStr, { serving with QuantityValue := f, QuantityUnits := b })
          | .error e => .error ("parsing quantity value " ++ goQuote a ++ ": " ++ e)
      | _ => .error ("invalid amount format " ++ goQuote v ++ ", expected \x27value unit\x27")
  | "Energy (kcal)" => (parseNutrientFloat v "energy").map fun f => (date, timeStr, { serving with EnergyKcal := f })
  | "Caffeine (mg)" => (parseNutrientFloat v "caffeine").map fun f => (date, timeStr, { serving with CaffeineMg := f })
  | "Water (g)" => (parseNutrientFloat v "water").map fun f => (date, timeStr, { serving with WaterG := f })
  | "B1 (Thiamine) (mg)" => (parseNutrientFloat v "vitamin B1").map fun f => (date, timeStr, { serving with B1Mg := f })
  | "B2 (Riboflavin) (mg)" => (parseNutrientFloat v "vitamin B2").map fun f => (date, timeStr, { serving with B2Mg := f })
  | "B3 (Niacin) (mg)" => (parseNutrientFloat v "vitamin B3").map fun f => (date, timeStr, { serving with B3Mg := f })
  | "B5 (Pantothenic Acid) (mg)" => (parseNutrientFloat v "vitamin B5").map fun f => (date, timeStr, { serving with B5Mg := f })
  | "B6 (Pyridoxine) (mg)" => (parseNutrientFloat v "vitamin B6").map fun f => (date, timeStr, { serving with B6Mg := f })
  | "B12 (Cobalamin) (µg)" => (parseNutrientFloat v "vitamin B12").map fun f => (date, timeStr, { serving with B12Mg := f })
  | "Biotin (µg)" => (parseNutrientFloat v "biotin").map fun f => (date, timeStr, { serving with BiotinUg := f })
  | "Choline (mg)" => (parseNutrientFloat v "choline").map fun f => (date, timeStr, { serving with CholineMg := f })
  | "Folate (µg)" => (parseNutrientFloat v "folate").map fun f => (date, timeStr, { serving with FolateUg := f })
  | "Vitamin A (IU)" => (parseNutrientFloat v "vitamin A").map fun f => (date, timeStr, { serving with VitaminAUI := f })
  | "Vitamin C (mg)" => (parseNutrientFloat v "vitamin C").map fun f => (date, timeStr, { serving with VitaminCMg := f })
  | "Vitamin D (IU)" => (parseNutrientFloat v "vitamin D").map fun f => (date, timeStr, { serving with VitaminDUI := f })
  | "Vitamin E (mg)" => (parseNutrientFloat v "vitamin E").map fun f => (date, timeStr, { serving with VitaminEMg := f })
  | "Vitamin K (µg)" => (parseNutrientFloat v "vitamin K").map fun f => (date, timeStr, { serving with VitaminKMg := f })
  | "Calcium (mg)" => (parseNutrientFloat v "calcium").map fun f => (date, timeStr, { serving with CalciumMg := f })
  | "Chromium (µg)" => (parseNutrientFloat v "chromium").map fun f => (date, timeStr, { serving with ChromiumUg := f })
  | "Copper (mg)" => (parseNutrientFloat v "copper").map fun f => (date, timeStr, { serving with CopperMg := f })
  | "Fluoride (µg)" => (parseNutrientFloat v "fluoride").map fun f => (date, timeStr, { serving with FluorideUg := f })
  | "Iodine (µg)" => (parseNutrientFloat v "iodine").map fun f => (date, timeStr, { serving with IodineUg := f })
  | "Iron (mg)" => (parseNutrientFloat v "iron").map fun f => (date, timeStr, { serving with IronMg := f })
  | "Magnesium (mg)" => (parseNutrientFloat v "magnesium").map fun f => (date, timeStr, { serving with MagnesiumMg := f })
  | "Manganese (mg)" => (parseNutrientFloat v "manganese").map fun f => (date, timeStr, { serving with ManganeseMg := f })
  | "Phosphorus (mg)" => (parseNutrientFloat v "phosphorus").map fun f => (date, timeStr, { serving with PhosphorusMg := f })
  | "Potassium (mg)" => (parseNutrientFloat v "potassium").map fun f => (date, timeStr, { serving with PotassiumMg := f })
  | "Selenium (µg)" => (parseNutrientFloat v "selenium").map fun f => (date, timeStr, { serving with SeleniumUg := f })
  | "Sodium (mg)" => (parseNutrientFloat v "sodium").map fun f => (date, timeStr, { serving with SodiumMg := f })
  | "Zinc (mg)" => (parseNutrientFloat v "zinc").map fun f => (date, timeStr, { serving with ZincMg := f })
  | "Carbs (g)" => (parseNutrientFloat v "carbohydrates").map fun f => (date, timeStr, { serving with CarbsG := f })
  | "Fiber (g)" => (parseNutrientFloat v "fiber").map fun f => (date, timeStr, { serving with FiberG := f })
  | "Fructose (g)" => (parseNutrientFloat v "fructose").map fun f => (date, timeStr, { serving with FructoseG := f })
  | "Galactose (g)" => (parseNutrientFloat v "galactose").map fun f => (date, timeStr, { serving with GalactoseG := f })
  | "Glucose (g)" => (parseNutrientFloat v "glucose").map fun f => (date, timeStr, { serving with GlucoseG := f })
  | "Lactose (g)" => (parseNutrientFloat v "lactose").map fun f => (date, timeStr, { serving with LactoseG := f })
  | "Maltose (g)" => (parseNutrientFloat v "maltose").map fun f => (date, timeStr, { serving with MaltoseG := f })
  | "Starch (g)" => (parseNutrientFloat v "starch").map fun f => (date, timeStr, { serving with StarchG := f })
  | "Sucrose (g)" => (parseNutrientFloat v "sucrose").map fun f => (date, timeStr, { serving with SucroseG := f })
  | "Sugars (g)" => (parseNutrientFloat v "sugars").map fun f => (date, timeStr, { serving with SugarsG := f })
  | "Net Carbs (g)" => (parseNutrientFloat v "net carbs").map fun f => (date, timeStr, { serving with NetCarbsG := f })
  | "Fat (g)" => (parseNutrientFloat v "fat").map fun f => (date, timeStr, { serving with FatG := f })
  | "Cholesterol (mg)" => (parseNutrientFloat v "cholesterol").map fun f => (date, timeStr, { serving with CholesterolMg := f })
  | "Monounsaturated (g)" => (parseNutrientFloat v "monounsaturated fat").map fun f => (date, timeStr, { serving with MonounsaturatedG := f })
  | "Polyunsaturated (g)" => (parseNutrientFloat v "polyunsaturated fat").map fun f => (date, timeStr, { serving with PolyunsaturatedG := f })
  | "Saturated (g)" => (parseNutrientFloat v "saturated fat").map fun f => (date, timeStr, { serving with SaturatedG := f })
  | "Trans-Fats (g)" => (parseNutrientFloat v "trans fat").map fun f => (date, timeStr, { serving with TransFatG := f })
  | "Omega-3 (g)" => (parseNutrientFloat v "omega-3").map fun f => (date, timeStr, { serving with Omega3G := f })
  | "Omega-6 (g)" => (parseNutrientFloat v "omega-6").map fun f => (date, timeStr, { serving with Omega6G := f })
  | "Cystine (g)" => (parseNutrientFloat v "cystine").map fun f => (date, timeStr, { serving with CystineG := f })
  | "Histidine (g)" => (parseNutrientFloat v "histidine").map fun f => (date, timeStr, { serving with HistidineG := f })
  | "Isoleucine (g)" => (parseNutrientFloat v "isoleucine").map fun f => (date, timeStr, { serving with IsoleucineG := f })
  | "Leucine (g)" => (parseNutrientFloat v "leucine").map fun f => (date, timeStr, { serving with LeucineG := f })
  | "Lysine (g)" => (parseNutrientFloat v "lysine").map fun f => (date, timeStr, { serving with LysineG := f })
  | "Methionine (g)" => (parseNutrientFloat v "methionine").map fun f => (date, timeStr, { serving with MethionineG := f })
  | "Phenylalanine (g)" => (parseNutrientFloat v "phenylalanine").map fun f => (date, timeStr, { serving with PhenylalanineG := f })
  | "Protein (g)" => (parseNutrientFloat v "protein").map fun f => (date, timeStr, { serving with ProteinG := f })
  | "Threonine (g)" => (parseNutrientFloat v "threonine").map fun f => (date, timeStr, { serving with ThreonineG := f })
  | "Tryptophan (g)" => (parseNutrientFloat v "tryptophan").map fun f => (date, timeStr, { serving with TryptophanG := f })
  | "Tyrosine (g)" => (parseNutrientFloat v "tyrosine").map fun f => (date, timeStr, { serving with TyrosineG := f })
  | "Valine (g)" => (parseNutrientFloat v "valine").map fun f => (date, timeStr, { serving with ValineG := f })
  | "Category" => .ok (date, timeStr, { serving with Category := v })
  | _ => .ok st

/-- Generic cell loop shared by the three row decoders: walks the row's
cells in order, resolving each cell's column name positionally from the
header row (a missing index yields `""`, the zero value of Go's
`map[int]string` lookup), and threads the decoder state through `apply`.
Mirrors the `for i, v := range record` loops of parse.go. -/
def decodeCells {σ : Type} (apply : String → String → σ → Except String σ) :
    List String → List String → σ → Except String σ
  | _, [], st => .ok st
  | ns, v :: vs, st =>
      match apply (ns.headD "") v st with
      | .error e => .error e
      | .ok st' => decodeCells apply ns.tail vs st'

/-- Decodes one data row of a servings export: scans the cells, then
applies the empty-time replacement (line 540-542), the nil-location
default (lines 544-546) and the timestamp assembly (line 548-551). -/
def decodeServingRow (headers row : List String) (location : Option String) :
    Except String ServingRecord :=
  match decodeCells applyServingColumn headers row ("", "", ServingRecord.zero) with
  | .error e => .error e
  | .ok st =>
      let date := st.1
      let timeStr := st.2.1
      let serving := st.2.2
      let timeStr := if timeStr = "" then "00:00 AM" else timeStr
      let location := match location with | none => some "UTC" | some l => some l
      match parseDateTime date timeStr location with
      | .error e => .error ("parsing serving time: " ++ e)
      | .ok t => .ok { serving with RecordedTime := t }

/-- Row loop shared by the three entry points: decodes the data rows in
order; a decode failure aborts, and after the last row the reader's
terminal event is consulted (clean EOF ends the loop, a structural read
error is returned as-is, as in the `if err != nil { return nil, err }`
arm of each loop). -/
def rowsLoop {α : Type} (dec : List String → Except String α) (terr : Option String) :
    List (List String) → Except String (List α)
  | [] => match terr with | none => .ok [] | some e => .error e
  | row :: rest =>
      match dec row with
      | .error e => .error e
      | .ok a =>
          match rowsLoop dec terr rest with
          | .error e => .error e
          | .ok as => .ok (a :: as)

/-- Go's `return nil, err` / `return records, nil` pattern: an error
yields a nil record slice together with the error. -/
def finishParse {α : Type} : Except String (List α) → List α × Option String
  | .ok recs => (recs, none)
  | .error e => ([], some e)

/-- Embeds `ParseServingsExport`.  `rows` and `terr` are the row stream of
the csv reader (see the module comment); the first row is the header the
loop indexes, the rest are data rows. -/
def ParseServingsExport (rows : List (List String)) (terr : Option String)
    (location : Option String) : List ServingRecord × Option String :=
  match rows with
  | [] => ([], terr)
  | header :: dataRows =>
      finishParse (rowsLoop (fun r => decodeServingRow header r location) terr dataRows)

/-- One step of the exercise row decoder: the `switch` of
`ParseExerciseExport` (lines 610-631).  The error labels "energy" and
"caffeine" are the literal strings the Go code uses. -/
def applyExerciseColumn (columnName v : String) (st : String × String × ExerciseRecord) :
    Except String (String × String × ExerciseRecord) :=
  let date := st.1
  let timeStr := st.2.1
  let exercise := st.2.2
  match columnName with
  | "Day" => .ok (v, timeStr, exercise)
  | "Time" => .ok (date, v, exercise)
  | "Exercise" => .ok (date, timeStr, { exercise with Exercise := v })
  | "Minutes" =>
      match parseFloat v 64 with
      | .error e => .error ("parsing energy: " ++ e)
      | .ok f => .ok (date, timeStr, { exercise with Minutes := f })
  | "Calories Burned" =>
      match parseFloat v 64 with
      | .error e => .error ("parsing caffeine: " ++ e)
      | .ok f => .ok (date, timeStr, { exercise with CaloriesBurned := f })
  | _ => .ok st

/-- Decodes one data row of an exercise export (lines 604-644). -/
def decodeExerciseRow (headers row : List String) (location : Option String) :
    Except String ExerciseRecord :=
  match decodeCells applyExerciseColumn headers row ("", "", ExerciseRecord.zero) with
  | .error e => .error e
  | .ok st =>
      let date := st.1
      let timeStr := st.2.1
      let exercise := st.2.2
      let timeStr := if timeStr = "" then "00:00 AM" else timeStr
      let location := match location with | none => some "UTC" | some l => some l
      match parseDateTime date timeStr location with
      | .error e => .error ("parsing exercise time: " ++ e)
      | .ok t => .ok { exercise with RecordedTime := t }

/-- Embeds `ParseExerciseExport`. -/
def ParseExerciseExport (rows : List (List String)) (terr : Option String)
    (location : Option String) : List ExerciseRecord × Option String :=
  match rows with
  | [] => ([], terr)
  | header :: dataRows =>
      finishParse (rowsLoop (fun r => decodeExerciseRow header r location) terr dataRows)

/-- One step of the biometric row decoder: the `switch` of
`ParseBiometricRecordsExport` (lines 694-711).  An amount cell containing
a "/" skips coercion and leaves the amount untouched; the error label
"energy" is the literal string the Go code uses. -/
def applyBiometricColumn (columnName v : String) (st : String × String × BiometricRecord) :
    Except String (String × String × BiometricRecord) :=
  let date := st.1
  let timeStr := st.2.1
  let bioRecord := st.2.2
  match columnName with
  | "Day" => .ok (v, timeStr, bioRecord)
  | "Time" => .ok (date, v, bioRecord)
  | "Metric" => .ok (date, timeStr, { bioRecord with Metric := v })
  | "Unit" => .ok (date, timeStr, { bioRecord with Unit := v })
  | "Amount" =>
      if (v.data.contains '/') = false then
        match parseFloat v 64 with
        | .error e => .error ("parsing energy: " ++ e)
        | .ok f => .ok (date, timeStr, { bioRecord with Amount := f })
      else .ok (date, timeStr, bioRecord)
  | _ => .ok st

/-- Decodes one data row of a biometric export (lines 688-724). -/
def decodeBiometricRow (headers row : List String) (location : Option String) :
    Except String BiometricRecord :=
  match decodeCells applyBiometricColumn headers row ("", "", BiometricRecord.zero) with
  | .error e => .error e
  | .ok st =>
      let date := st.1
      let timeStr := st.2.1
      let bioRecord := st.2.2
      let timeStr := if timeStr = "" then "00:00 AM" else timeStr
      let location := match location with | none => some "UTC" | some l => some l
      match parseDateTime date timeStr location with
      | .error e => .error ("parsing biometric time: " ++ e)
      | .ok t => .ok { bioRecord with RecordedTime := t }

/-- Embeds `ParseBiometricRecordsExport`. -/
def ParseBiometricRecordsExport (rows : List (List String)) (terr : Option String)
    (location : Option String) : List BiometricRecord × Option String :=
  match rows with
  | [] => ([], terr)
  | header :: dataRows =>
      finishParse (rowsLoop (fun r => decodeBiometricRow header r location) terr dataRows)

example :
    ParseExerciseExport [["Day", "Time", "Exercise", "Minutes"], ["2023-05-01", "14:30", "Running", "30"]] none none
      = ([{ RecordedTime := ⟨2023, 5, 1, 14, 30, "UTC"⟩, Exercise := "Running", Minutes := mkRat 30 1 }], none) := by decide

example :
    ParseServingsExport [["Day", "Time", "Food Name", "Amount"], ["2023-05-01", "14:30", "Oats", "123.4 g"]] none (some "EST")
      = ([{ RecordedTime := ⟨2023, 5, 1, 14, 30, "EST"⟩, FoodName := "Oats",
            QuantityValue := mkRat 617 5, QuantityUnits := "g" }], none) := by decide

example :
    ParseBiometricRecordsExport [["Day", "Time", "Metric", "Unit", "Amount"], ["2023-05-01", "14:30", "Weight", "kg", "80.5"]] none none
      = ([{ RecordedTime := ⟨2023, 5, 1, 14, 30, "UTC"⟩, Metric := "Weight", Unit := "kg",
            Amount := mkRat 161 2 }], none) := by decide

example :
    (ParseServingsExport [["Day", "Time"], ["2023-05-01", ""]] none none).2.isSome = true := by decide

/-! Recognized header vocabularies: exactly the literal case labels of the
three switches. -/

def servingColumnNames : List String :=
  ["Day", "Time", "Group", "Food Name", "Amount",
   "Energy (kcal)", "Caffeine (mg)", "Water (g)",
   "B1 (Thiamine) (mg)", "B2 (Riboflavin) (mg)", "B3 (Niacin) (mg)",
   "B5 (Pantothenic Acid) (mg)", "B6 (Pyridoxine) (mg)", "B12 (Cobalamin) (µg)",
   "Biotin (µg)", "Choline (mg)", "Folate (µg)",
   "Vitamin A (IU)", "Vitamin C (mg)", "Vitamin D (IU)", "Vitamin E (mg)", "Vitamin K (µg)",
   "Calcium (mg)", "Chromium (µg)", "Copper (mg)", "Fluoride (µg)", "Iodine (µg)",
   "Iron (mg)", "Magnesium (mg)", "Manganese (mg)", "Phosphorus (mg)", "Potassium (mg)",
   "Selenium (µg)", "Sodium (mg)", "Zinc (mg)",
   "Carbs (g)", "Fiber (g)", "Fructose (g)", "Galactose (g)", "Glucose (g)",
   "Lactose (g)", "Maltose (g)", "Starch (g)", "Sucrose (g)", "Sugars (g)", "Net Carbs (g)",
   "Fat (g)", "Cholesterol (mg)", "Monounsaturated (g)", "Polyunsaturated (g)",
   "Saturated (g)", "Trans-Fats (g)", "Omega-3 (g)", "Omega-6 (g)",
   "Cystine (g)", "Histidine (g)", "Isoleucine (g)", "Leucine (g)", "Lysine (g)",
   "Methionine (g)", "Phenylalanine (g)", "Protein (g)", "Threonine (g)",
   "Tryptophan (g)", "Tyrosine (g)", "Valine (g)", "Category"]

def isServingColumn (c : String) : Bool := servingColumnNames.contains c

def exerciseColumnNames : List String :=
  ["Day", "Time", "Exercise", "Minutes", "Calories Burned"]

def isExerciseColumn (c : String) : Bool := exerciseColumnNames.contains c

def biometricColumnNames : List String :=
  ["Day", "Time", "Metric", "Unit", "Amount"]

def isBiometricColumn (c : String) : Bool := biometricColumnNames.contains c

set_option maxHeartbeats 2000000 in
theorem applyServingColumn_unrecognized (c v : String) (st : String × String × ServingRecord)
    (h : isServingColumn c = false) : applyServingColumn c v st = .ok st := by
  unfold applyServingColumn
  split
  all_goals first
    | rfl
    | exact absurd h (by decide)

theorem applyExerciseColumn_unrecognized (c v : String) (st : String × String × ExerciseRecord)
    (h : isExerciseColumn c = false) : applyExerciseColumn c v st = .ok st := by
  unfold applyExerciseColumn
  split
  all_goals first
    | rfl
    | exact absurd h (by decide)

theorem applyBiometricColumn_unrecognized (c v : String) (st : String × String × BiometricRecord)
    (h : isBiometricColumn c = false) : applyBiometricColumn c v st = .ok st := by
  unfold applyBiometricColumn
  split
  all_goals first
    | rfl
    | exact absurd h (by decide)

/-- Inserts a value at position `j` of a list (appending when `j` is past
the end).  Used to state that an extra column does not disturb a parse. -/
def insertCell : Nat → String → List String → List String
  | 0, x, l => x :: l
  | _ + 1, x, [] => [x]
  | n + 1, x, a :: l => a :: insertCell n x l

theorem decodeCells_insert {σ : Type} (apply : String → String → σ → Except String σ)
    (c x : String) (hc : ∀ v st, apply c v st = .ok st) :
    ∀ (j : Nat) (ns vs : List String) (st : σ), j ≤ ns.length → j ≤ vs.length →
      decodeCells apply (insertCell j c ns) (insertCell j x vs) st
        = decodeCells apply ns vs st := by
  intro j
  induction j with
  | zero =>
      intro ns vs st _ _
      show decodeCells apply (c :: ns) (x :: vs) st = decodeCells apply ns vs st
      simp only [decodeCells, List.headD_cons, List.tail_cons, hc]
  | succ n ih =>
      intro ns vs st h1 h2
      cases ns with
      | nil => exact absurd h1 (Nat.not_succ_le_zero n)
      | cons n1 ns' =>
          cases vs with
          | nil => exact absurd h2 (Nat.not_succ_le_zero n)
          | cons v1 vs' =>
              show decodeCells apply (n1 :: insertCell n c ns') (v1 :: insertCell n x vs') st
                  = decodeCells apply (n1 :: ns') (v1 :: vs') st
              simp only [decodeCells, List.headD_cons, List.tail_cons]
              cases happ : apply n1 v1 st with
              | error e => rfl
              | ok st' =>
                  exact ih ns' vs' st' (Nat.le_of_succ_le_succ h1) (Nat.le_of_succ_le_succ h2)

theorem decodeServingRow_insert (j : Nat) (c x : String) (hc : isServingColumn c = false)
    (header row : List String) (loc : Option String)
    (h1 : j ≤ header.length) (h2 : j ≤ row.length) :
    decodeServingRow (insertCell j c header) (insertCell j x row) loc
      = decodeServingRow header row loc := by
  unfold decodeServingRow
  rw [decodeCells_insert applyServingColumn c x
        (fun v st => applyServingColumn_unrecognized c v st hc) j header row _ h1 h2]

theorem decodeExerciseRow_insert (j : Nat) (c x : String) (hc : isExerciseColumn c = false)
    (header row : List String) (loc : Option String)
    (h1 : j ≤ header.length) (h2 : j ≤ row.length) :
    decodeExerciseRow (insertCell j c header) (insertCell j x row) loc
      = decodeExerciseRow header row loc := by
  unfold decodeExerciseRow
  rw [decodeCells_insert applyExerciseColumn c x
        (fun v st => applyExerciseColumn_unrecognized c v st hc) j header row _ h1 h2]

theorem decodeBiometricRow_insert (j : Nat) (c x : String) (hc : isBiometricColumn c = false)
    (header row : List String) (loc : Option String)
    (h1 : j ≤ header.length) (h2 : j ≤ row.length) :
    decodeBiometricRow (insertCell j c header) (insertCell j x row) loc
      = decodeBiometricRow header row loc := by
  unfold decodeBiometricRow
  rw [decodeCells_insert applyBiometricColumn c x
        (fun v st => applyBiometricColumn_unrecognized c v st hc) j header row _ h1 h2]

theorem rowsLoop_zipWith_insert {α : Type} (dec1 dec2 : List String → Except String α)
    (j : Nat) (terr : Option String) :
    ∀ (xs : List String) (rows : List (List String)),
      rows.length = xs.length →
      (∀ x r, r ∈ rows → dec1 (insertCell j x r) = dec2 r) →
      rowsLoop dec1 terr (List.zipWith (insertCell j) xs rows) = rowsLoop dec2 terr rows := by
  intro xs
  induction xs with
  | nil =>
      intro rows hlen _
      cases rows with
      | nil => rfl
      | cons r rs => simp at hlen
  | cons x xs ih =>
      intro rows hlen hdec
      cases rows with
      | nil => simp at hlen
      | cons r rs =>
          show rowsLoop dec1 terr (insertCell j x r :: List.zipWith (insertCell j) xs rs)
              = rowsLoop dec2 terr (r :: rs)
          simp only [rowsLoop]
          rw [hdec x r (List.mem_cons_self r rs)]
          cases hd : dec2 r with
          | error e => rfl
          | ok a =>
              rw [ih rs (by simpa using hlen) (fun x2 r2 hr2 => hdec x2 r2 (List.mem_cons_of_mem r hr2))]

theorem rowsLoop_ok {α : Type} (dec : List String → Except String α) (terr : Option String) :
    ∀ (rows : List (List String)) (recs : List α),
      rowsLoop dec terr rows = .ok recs →
      recs.length = rows.length ∧
      ∀ (i : Nat) (hi : i < rows.length) (hr : i < recs.length),
        dec (rows.get ⟨i, hi⟩) = .ok (recs.get ⟨i, hr⟩) := by
  intro rows
  induction rows with
  | nil =>
      intro recs h
      cases terr with
      | none =>
          injection h with h2
          subst h2
          exact ⟨rfl, fun i hi _ => absurd hi (by simp)⟩
      | some e => cases h
  | cons row rest ih =>
      intro recs h
      simp only [rowsLoop] at h
      cases hd : dec row with
      | error e => rw [hd] at h; cases h
      | ok a =>
          rw [hd] at h
          cases hrest : rowsLoop dec terr rest with
          | error e => rw [hrest] at h; cases h
          | ok as =>
              rw [hrest] at h
              injection h with h2
              subst h2
              obtain ⟨ihlen, ihget⟩ := ih as hrest
              refine ⟨by simp [ihlen], ?_⟩
              intro i hi hr
              cases i with
              | zero => exact hd
              | succ k => exact ihget k (Nat.lt_of_succ_lt_succ hi) (Nat.lt_of_succ_lt_succ hr)

theorem finishParse_error {α : Type} (r : Except String (List α)) (e : String)
    (h : (finishParse r).2 = some e) : (finishParse r).1 = [] := by
  cases r with
  | ok recs => simp [finishParse] at h
  | error e2 => simp [finishParse]

theorem finish_rowsLoop_ok {α : Type} (dec : List String → Except String α)
    (terr : Option String) (rows : List (List String)) (recs : List α)
    (h : finishParse (rowsLoop dec terr rows) = (recs, none)) :
    rowsLoop dec terr rows = .ok recs := by
  cases hr : rowsLoop dec terr rows with
  | ok as =>
      rw [hr] at h
      simp only [finishParse, Prod.mk.injEq] at h
      rw [h.1]
  | error e =>
      rw [hr] at h
      simp [finishParse] at h

/-! Definitional unfolding equations used to step concrete computations. -/

theorem decodeCells_cons2 {σ : Type} (apply : String → String → σ → Except String σ)
    (n : String) (ns : List String) (v : String) (vs : List String) (st : σ) :
    decodeCells apply (n :: ns) (v :: vs) st
      = match apply n v st with
        | .error e => .error e
        | .ok st' => decodeCells apply ns vs st' := rfl

theorem rowsLoop_cons {α : Type} (dec : List String → Except String α) (terr : Option String)
    (row : List String) (rest : List (List String)) :
    rowsLoop dec terr (row :: rest)
      = match dec row with
        | .error e => .error e
        | .ok a =>
            match rowsLoop dec terr rest with
            | .error e => .error e
            | .ok as => .ok (a :: as) := rfl

theorem ParseServingsExport_cons (header : List String) (dataRows : List (List String))
    (terr : Option String) (loc : Option String) :
    ParseServingsExport (header :: dataRows) terr loc
      = finishParse (rowsLoop (fun r => decodeServingRow header r loc) terr dataRows) := rfl

theorem ParseExerciseExport_cons (header : List String) (dataRows : List (List String))
    (terr : Option String) (loc : Option String) :
    ParseExerciseExport (header :: dataRows) terr loc
      = finishParse (rowsLoop (fun r => decodeExerciseRow header r loc) terr dataRows) := rfl

theorem ParseBiometricRecordsExport_cons (header : List String) (dataRows : List (List String))
    (terr : Option String) (loc : Option String) :
    ParseBiometricRecordsExport (header :: dataRows) terr loc
      = finishParse (rowsLoop (fun r => decodeBiometricRow header r loc) terr dataRows) := rfl

/-- C1: a data row whose Time cell is empty does NOT yield a midnight
timestamp: the entry points replace the empty time with the string
"00:00 AM" (lines 540-542, 633-635, 713-715), which fails the
"2006-01-02 15:04" layout because of the trailing " AM", so every such
row aborts the parse with a timestamp error, in all three families.  The
assembler `parseDateTime` itself, reached with an empty time string, does
produce the midnight default the claim (and the assembler's own comment)
describe — the first conjunct — but the entry points' replacement makes
that path unreachable. -/
theorem c1_empty_time_row_fails :
    parseDateTime "2023-05-01" "" (some "EST") = .ok ⟨2023, 5, 1, 0, 0, "EST"⟩
    ∧ (ParseServingsExport [["Day", "Time"], ["2023-05-01", ""]] none (some "EST")).2
        = some "parsing serving time: invalid date/time format \"2023-05-01 00:00 AM\": parse error"
    ∧ (ParseServingsExport [["Day", "Time"], ["2023-05-01", ""]] none (some "EST")).1 = []
    ∧ (ParseExerciseExport [["Day", "Time"], ["2023-05-01", ""]] none (some "EST")).2
        = some "parsing exercise time: invalid date/time format \"2023-05-01 00:00 AM\": parse error"
    ∧ (ParseBiometricRecordsExport [["Day", "Time"], ["2023-05-01", ""]] none (some "EST")).2
        = some "parsing biometric time: invalid date/time format \"2023-05-01 00:00 AM\": parse error" :=
  ⟨by decide, by decide, by decide, by decide, by decide⟩

/-- C2: the serving nutrient columns do wrap a coercion failure with the
nutrient name and the quoted raw cell (last conjunct), but the exercise
Minutes and Calories Burned columns label their errors "parsing energy"
and "parsing caffeine", and the biometric Amount column labels its error
"parsing energy" (copy-paste labels, lines 620, 627, 707): the error
never contains those columns' own field names, contradicting the claim
for those families.  The raw offending cell does appear in every case,
via the wrapped strconv message. -/
theorem c2_error_misattribution :
    (ParseExerciseExport [["Day", "Time", "Minutes"], ["2023-05-01", "10:00", "abc"]] none none
       = ([], some "parsing energy: strconv.ParseFloat: parsing \"abc\": invalid syntax"))
    ∧ (ParseExerciseExport [["Day", "Time", "Calories Burned"], ["2023-05-01", "10:00", "abc"]] none none
       = ([], some "parsing caffeine: strconv.ParseFloat: parsing \"abc\": invalid syntax"))
    ∧ (ParseBiometricRecordsExport [["Day", "Time", "Amount"], ["2023-05-01", "10:00", "abc"]] none none
       = ([], some "parsing energy: strconv.ParseFloat: parsing \"abc\": invalid syntax"))
    ∧ (ParseServingsExport [["Day", "Time", "Energy (kcal)"], ["2023-05-01", "10:00", "abc"]] none none
       = ([], some "parsing energy value \"abc\": strconv.ParseFloat: parsing \"abc\": invalid syntax")) :=
  ⟨by decide, by decide, by decide, by decide⟩

/-- C5: the value coercer maps the empty cell to exactly 0 for every
field of every family (both through `parseFloat` directly and through the
nutrient wrapper), and only a non-empty string can produce a coercion
error. -/
theorem c5_empty_cell_zero :
    (∀ bitSize : Nat, parseFloat "" bitSize = .ok 0)
    ∧ (∀ nutrient : String, parseNutrientFloat "" nutrient = .ok 0)
    ∧ (∀ (s : String) (bitSize : Nat) (e : String), parseFloat s bitSize = .error e → s ≠ "") := by
  refine ⟨fun _ => rfl, fun _ => rfl, ?_⟩
  intro s bitSize e h hs
  subst hs
  simp [parseFloat] at h

/-- C5 witness: the hypotheses of the error direction hold at the
concrete cell "abc". -/
theorem c5_witness :
    parseFloat "abc" 64 = .error (strconvErr "abc") ∧ "abc" ≠ "" :=
  ⟨by decide, c5_empty_cell_zero.2.2 "abc" 64 (strconvErr "abc") (by decide)⟩

/-- C7: whenever a parse entry point returns an error, the record
component of its result is the empty (nil) collection — no partial
sequence of already-decoded rows is ever returned, for all three
families and every error path (structural terminal error, row decode
failure of any kind, timestamp failure). -/
theorem c7_atomic_failure (rows : List (List String)) (terr : Option String)
    (loc : Option String) (e : String) :
    ((ParseServingsExport rows terr loc).2 = some e → (ParseServingsExport rows terr loc).1 = [])
    ∧ ((ParseExerciseExport rows terr loc).2 = some e → (ParseExerciseExport rows terr loc).1 = [])
    ∧ ((ParseBiometricRecordsExport rows terr loc).2 = some e
        → (ParseBiometricRecordsExport rows terr loc).1 = []) := by
  refine ⟨?_, ?_, ?_⟩ <;>
    (cases rows with
     | nil => exact fun _ => rfl
     | cons header dataRows => exact fun h => finishParse_error _ e h)

/-- C7 witness: a structural read error right after the header. -/
theorem c7_witness :
    (ParseServingsExport [["Day"]] (some "read failure") none).2 = some "read failure"
    ∧ (ParseServingsExport [["Day"]] (some "read failure") none).1 = [] :=
  ⟨by decide,
   (c7_atomic_failure [["Day"]] (some "read failure") none "read failure").1 (by decide)⟩

/-- C9: each parse entry point is a pure function of the row stream, the
reader's terminal event and the supplied zone, so parsing the same input
twice yields structurally equal output, for all three families. -/
theorem c9_deterministic (rows : List (List String)) (terr : Option String)
    (loc : Option String) :
    ParseServingsExport rows terr loc = ParseServingsExport rows terr loc
    ∧ ParseExerciseExport rows terr loc = ParseExerciseExport rows terr loc
    ∧ ParseBiometricRecordsExport rows terr loc = ParseBiometricRecordsExport rows terr loc :=
  ⟨rfl, rfl, rfl⟩

/-- C10: an empty row stream, or one holding only a header row — any
header row at all, its contents are never validated — succeeds with an
empty record collection and no error, for all three families. -/
theorem c10_empty_input_ok (header : List String) (loc : Option String) :
    (ParseServingsExport [] none loc = ([], none)
      ∧ ParseServingsExport [header] none loc = ([], none))
    ∧ (ParseExerciseExport [] none loc = ([], none)
      ∧ ParseExerciseExport [header] none loc = ([], none))
    ∧ (ParseBiometricRecordsExport [] none loc = ([], none)
      ∧ ParseBiometricRecordsExport [header] none loc = ([], none)) :=
  ⟨⟨rfl, rfl⟩, ⟨rfl, rfl⟩, ⟨rfl, rfl⟩⟩

/-- C4: a biometric Amount cell containing a "/" character skips numeric
coercion entirely, whatever the rest of the cell holds: the decoder step
leaves its state untouched (first conjunct), and at the entry-point level
the resulting record keeps Amount = 0 with no error raised (second
conjunct). -/
theorem c4_slash_amount_skipped (v : String) (h : v.data.contains '/' = true) :
    (∀ st, applyBiometricColumn "Amount" v st = .ok st)
    ∧ ParseBiometricRecordsExport
        [["Day", "Time", "Metric", "Unit", "Amount"],
         ["2023-05-01", "10:00", "Blood Pressure", "mmHg", v]] none none
      = ([{ RecordedTime := ⟨2023, 5, 1, 10, 0, "UTC"⟩, Metric := "Blood Pressure",
            Unit := "mmHg", Amount := 0 }], none) := by
  have happ : ∀ st, applyBiometricColumn "Amount" v st = .ok st := by
    intro st
    show (if (v.data.contains '/') = false then _ else _) = _
    rw [h]
    simp
  refine ⟨happ, ?_⟩
  have hcells : decodeCells applyBiometricColumn ["Day", "Time", "Metric", "Unit", "Amount"]
      ["2023-05-01", "10:00", "Blood Pressure", "mmHg", v] ("", "", BiometricRecord.zero)
      = .ok ("2023-05-01", "10:00",
          ({ Metric := "Blood Pressure", Unit := "mmHg" } : BiometricRecord)) := by
    rw [show decodeCells applyBiometricColumn ["Day", "Time", "Metric", "Unit", "Amount"]
          ["2023-05-01", "10:00", "Blood Pressure", "mmHg", v] ("", "", BiometricRecord.zero)
          = decodeCells applyBiometricColumn ["Amount"] [v]
              ("2023-05-01", "10:00", ({ Metric := "Blood Pressure", Unit := "mmHg" } : BiometricRecord))
          from rfl,
        decodeCells_cons2, happ]
    rfl
  have hrow : decodeBiometricRow ["Day", "Time", "Metric", "Unit", "Amount"]
      ["2023-05-01", "10:00", "Blood Pressure", "mmHg", v] none
      = .ok { RecordedTime := ⟨2023, 5, 1, 10, 0, "UTC"⟩, Metric := "Blood Pressure",
              Unit := "mmHg" } := by
    unfold decodeBiometricRow
    rw [hcells]
    rfl
  rw [ParseBiometricRecordsExport_cons]
  simp only [rowsLoop_cons, hrow]
  rfl

/-- C4 witness: the blood-pressure reading of the claim. -/
theorem c4_witness :
    ParseBiometricRecordsExport
        [["Day", "Time", "Metric", "Unit", "Amount"],
         ["2023-05-01", "10:00", "Blood Pressure", "mmHg", "120/80"]] none none
      = ([{ RecordedTime := ⟨2023, 5, 1, 10, 0, "UTC"⟩, Metric := "Blood Pressure",
            Unit := "mmHg", Amount := 0 }], none) :=
  (c4_slash_amount_skipped "120/80" (by decide)).2

/-- C6: whenever a parse entry point succeeds, it returns exactly one
record per non-header input row, in input order: the output length equals
the number of data rows and the i-th record is precisely the decoding of
the i-th data row (so nothing is dropped, deduplicated or reordered), for
all three families. -/
theorem c6_row_count_order (rows : List (List String)) (terr : Option String)
    (loc : Option String) :
    (∀ recs, ParseServingsExport rows terr loc = (recs, none) →
       recs.length = rows.tail.length ∧
       ∀ (i : Nat) (hi : i < rows.tail.length) (hr : i < recs.length),
         decodeServingRow (rows.headD []) (rows.tail.get ⟨i, hi⟩) loc = .ok (recs.get ⟨i, hr⟩))
    ∧ (∀ recs, ParseExerciseExport rows terr loc = (recs, none) →
       recs.length = rows.tail.length ∧
       ∀ (i : Nat) (hi : i < rows.tail.length) (hr : i < recs.length),
         decodeExerciseRow (rows.headD []) (rows.tail.get ⟨i, hi⟩) loc = .ok (recs.get ⟨i, hr⟩))
    ∧ (∀ recs, ParseBiometricRecordsExport rows terr loc = (recs, none) →
       recs.length = rows.tail.length ∧
       ∀ (i : Nat) (hi : i < rows.tail.length) (hr : i < recs.length),
         decodeBiometricRow (rows.headD []) (rows.tail.get ⟨i, hi⟩) loc = .ok (recs.get ⟨i, hr⟩)) := by
  refine ⟨?_, ?_, ?_⟩ <;>
    (cases rows with
     | nil =>
         intro recs h
         injection h with h1 h2
         subst h1
         exact ⟨rfl, fun i hi _ => absurd hi (Nat.not_lt_zero i)⟩
     | cons header dataRows =>
         intro recs h
         exact rowsLoop_ok _ terr dataRows recs (finish_rowsLoop_ok _ terr dataRows recs h))

/-- C6 witness: a one-row servings export produces exactly one record. -/
theorem c6_witness :
    ([({ RecordedTime := ⟨2023, 5, 1, 10, 0, "UTC"⟩ } : ServingRecord)] : List ServingRecord).length
      = ([["2023-05-01", "10:00"]] : List (List String)).length :=
  ((c6_row_count_order [["Day", "Time"], ["2023-05-01", "10:00"]] none none).1
    [{ RecordedTime := ⟨2023, 5, 1, 10, 0, "UTC"⟩ }] (by decide)).1

/-- C8: inserting an extra column with an unrecognized header name at any
position `j` of the header row and of every data row (with arbitrary cell
values, one per row) leaves the result of the parse — records and error
alike — unchanged, for each family whose vocabulary does not contain the
inserted name.  In particular the extra column never causes an error. -/
theorem c8_unknown_column_ignored (c : String) (j : Nat) (terr : Option String)
    (loc : Option String) (header : List String) (rows : List (List String))
    (xs : List String) (hj : j ≤ header.length) (hlen : rows.length = xs.length)
    (hrows : ∀ r, r ∈ rows → j ≤ r.length) :
    (isServingColumn c = false →
       ParseServingsExport (insertCell j c header :: List.zipWith (insertCell j) xs rows) terr loc
         = ParseServingsExport (header :: rows) terr loc)
    ∧ (isExerciseColumn c = false →
       ParseExerciseExport (insertCell j c header :: List.zipWith (insertCell j) xs rows) terr loc
         = ParseExerciseExport (header :: rows) terr loc)
    ∧ (isBiometricColumn c = false →
       ParseBiometricRecordsExport (insertCell j c header :: List.zipWith (insertCell j) xs rows) terr loc
         = ParseBiometricRecordsExport (header :: rows) terr loc) := by
  refine ⟨?_, ?_, ?_⟩
  · intro hc
    rw [ParseServingsExport_cons, ParseServingsExport_cons,
        rowsLoop_zipWith_insert _ _ j terr xs rows hlen
          (fun x r hr => decodeServingRow_insert j c x hc header r loc hj (hrows r hr))]
  · intro hc
    rw [ParseExerciseExport_cons, ParseExerciseExport_cons,
        rowsLoop_zipWith_insert _ _ j terr xs rows hlen
          (fun x r hr => decodeExerciseRow_insert j c x hc header r loc hj (hrows r hr))]
  · intro hc
    rw [ParseBiometricRecordsExport_cons, ParseBiometricRecordsExport_cons,
        rowsLoop_zipWith_insert _ _ j terr xs rows hlen
          (fun x r hr => decodeBiometricRow_insert j c x hc header r loc hj (hrows r hr))]

/-- C8 witness: a "Notes" column with an arbitrary value inserted at the
front of a servings export changes nothing. -/
theorem c8_witness :
    ParseServingsExport [["Notes", "Day", "Time"], ["hello", "2023-05-01", "10:00"]] none none
      = ParseServingsExport [["Day", "Time"], ["2023-05-01", "10:00"]] none none :=
  (c8_unknown_column_ignored "Notes" 0 none none ["Day", "Time"] [["2023-05-01", "10:00"]]
      ["hello"] (Nat.zero_le _) (by decide) (fun r _ => Nat.zero_le _)).1 (by decide)

/-- Finds the first whitespace character, returning the part before it and
the part after the maximal whitespace run starting there.  Helper for the
spec-side splitting rule. -/
def breakAtWsRun : List Char → Option (List Char × List Char)
  | [] => none
  | c :: cs =>
      if c.isWhitespace then some ([], (c :: cs).dropWhile Char.isWhitespace)
      else (breakAtWsRun cs).map fun p => (c :: p.1, p.2)

/-- Modelled from the spec: "split on the first whitespace run into a
numeric prefix and a trailing unit string".  This follows the claim's
wording and exists only to compare it against the code's
`strings.SplitN(v, " ", 2)` (embedded as `goSplitN2`). -/
def specSplitWhitespaceRun (v : String) : Option (String × String) :=
  match breakAtWsRun v.data with
  | none => none
  | some p => some (⟨p.1⟩, ⟨p.2⟩)

theorem splitFirstSpace_eq_none (l : List Char) (h : ¬ (' ' ∈ l)) :
    splitFirstSpace l = none := by
  induction l with
  | nil => rfl
  | cons c cs ih =>
      simp only [List.mem_cons, not_or] at h
      simp only [splitFirstSpace]
      rw [if_neg (fun hc => h.1 hc.symm), ih h.2]
      rfl

theorem goSplitN2_no_space (v : String) (h : ¬ (' ' ∈ v.data)) : goSplitN2 v = [v] := by
  unfold goSplitN2
  rw [splitFirstSpace_eq_none v.data h]

theorem applyServingColumn_amount (v : String) (st : String × String × ServingRecord) :
    applyServingColumn "Amount" v st
      = match goSplitN2 v with
        | [a, b] =>
            match parseFloat a 64 with
            | .ok f => .ok (st.1, st.2.1, { st.2.2 with QuantityValue := f, QuantityUnits := b })
            | .error e => .error ("parsing quantity value " ++ goQuote a ++ ": " ++ e)
        | _ => .error ("invalid amount format " ++ goQuote v ++ ", expected \x27value unit\x27") := rfl

/-- C3 counterexample: the code splits the nutrition Amount cell at the
first single space character, not at the first whitespace run.  On the
cell "1  g" (two spaces) the spec's whitespace-run split yields unit "g",
while the parse yields unit " g" with the run's second space kept; the
two disagree. -/
theorem c3_counterexample :
    specSplitWhitespaceRun "1  g" = some ("1", "g")
    ∧ (ParseServingsExport [["Day", "Time", "Amount"], ["2023-05-01", "10:00", "1  g"]] none none).1.map
        ServingRecord.QuantityUnits = [" g"]
    ∧ (" g" : String) ≠ "g" :=
  ⟨by decide, by decide, by decide⟩

/-- C3 amended: the nutrition Amount cell is split at the first space
character into a numeric prefix and the remainder as the unit (any
further whitespace stays inside the unit): "123.4 g" yields quantity
123.4 and unit "g"; and every Amount cell containing no space character
makes the parse fail with a format error carrying the raw cell text. -/
theorem c3_amended_split :
    (ParseServingsExport [["Day", "Time", "Food Name", "Amount"],
        ["2023-05-01", "10:00", "Oats", "123.4 g"]] none none
       = ([{ RecordedTime := ⟨2023, 5, 1, 10, 0, "UTC"⟩, FoodName := "Oats",
             QuantityValue := mkRat 617 5, QuantityUnits := "g" }], none))
    ∧ (∀ v : String, ¬ (' ' ∈ v.data) →
        ParseServingsExport [["Day", "Time", "Amount"], ["2023-05-01", "10:00", v]] none none
          = ([], some ("invalid amount format " ++ goQuote v ++ ", expected \x27value unit\x27"))) := by
  refine ⟨by decide, ?_⟩
  intro v hv
  have happ : applyServingColumn "Amount" v ("2023-05-01", "10:00", ServingRecord.zero)
      = .error ("invalid amount format " ++ goQuote v ++ ", expected \x27value unit\x27") := by
    rw [applyServingColumn_amount, goSplitN2_no_space v hv]
  have hcells : decodeCells applyServingColumn ["Day", "Time", "Amount"]
      ["2023-05-01", "10:00", v] ("", "", ServingRecord.zero)
      = .error ("invalid amount format " ++ goQuote v ++ ", expected \x27value unit\x27") := by
    rw [show decodeCells applyServingColumn ["Day", "Time", "Amount"]
          ["2023-05-01", "10:00", v] ("", "", ServingRecord.zero)
          = decodeCells applyServingColumn ["Amount"] [v]
              ("2023-05-01", "10:00", ServingRecord.zero) from rfl,
        decodeCells_cons2, happ]
  have hrow : decodeServingRow ["Day", "Time", "Amount"] ["2023-05-01", "10:00", v] none
      = .error ("invalid amount format " ++ goQuote v ++ ", expected \x27value unit\x27") := by
    unfold decodeServingRow
    rw [hcells]
  rw [ParseServingsExport_cons]
  simp only [rowsLoop_cons, hrow]
  rfl

/-- C3 witness: the no-space direction of the amended claim at the
concrete cell "123.4". -/
theorem c3_witness :
    ParseServingsExport [["Day", "Time", "Amount"], ["2023-05-01", "10:00", "123.4"]] none none
      = ([], some "invalid amount format \"123.4\", expected \x27value unit\x27") :=
  c3_amended_split.2 "123.4" (by decide)
